import Mathlib

/-!
Verification development for the promoMaker repository.

The TypeScript sources are shallowly embedded: JS numbers that matter only
through exact arithmetic are modelled as `ℚ`; where an IEEE-754 binary64
rounding step is observable (the luminance threshold comparison) the
arithmetic is modelled exactly as dyadic mantissa–exponent pairs with
round-half-to-even (`roundPosRat` and the `dy` operations); JS strings are
Lean `String`s (lists of characters); fallible steps return
`Option`/`Except`.
-/

namespace PromoMaker

/-- Hex digit test, as accepted by JS `parseInt(s, 16)` digit scanning. -/
def isHexDigitChar (ch : Char) : Bool :=
  match ch with
  | '0' => true | '1' => true | '2' => true | '3' => true | '4' => true
  | '5' => true | '6' => true | '7' => true | '8' => true | '9' => true
  | 'a' => true | 'b' => true | 'c' => true | 'd' => true | 'e' => true | 'f' => true
  | 'A' => true | 'B' => true | 'C' => true | 'D' => true | 'E' => true | 'F' => true
  | _ => false

/-- Value of a hex digit (0 for non-digits, never reached on digit input). -/
def hexVal (ch : Char) : Nat :=
  match ch with
  | '0' => 0 | '1' => 1 | '2' => 2 | '3' => 3 | '4' => 4
  | '5' => 5 | '6' => 6 | '7' => 7 | '8' => 8 | '9' => 9
  | 'a' => 10 | 'b' => 11 | 'c' => 12 | 'd' => 13 | 'e' => 14 | 'f' => 15
  | 'A' => 10 | 'B' => 11 | 'C' => 12 | 'D' => 13 | 'E' => 14 | 'F' => 15
  | _ => 0

/-- Accumulate the longest hex-digit run at the head of the character list. -/
def parseHexDigits (acc : Nat) : List Char → Nat
  | [] => acc
  | c :: rest =>
    if isHexDigitChar c then parseHexDigits (acc * 16 + hexVal c) rest else acc

/-- JS `parseInt(s, 16)`: parses the longest hex-digit run at the head of the
string; `none` models `NaN` (no leading digit).  The embedding covers inputs
without leading whitespace, sign, or a `0x` prefix — the only shapes reachable
from the two-character substrings the repository feeds to `parseInt`. -/
def jsParseIntHex (cs : List Char) : Option Nat :=
  match cs with
  | [] => none
  | c :: _ => if isHexDigitChar c then some (parseHexDigits 0 cs) else none

/-- JS `s.substring(a, b)` on a character list (`a ≤ b` in all uses). -/
def jsSub (cs : List Char) (a b : Nat) : List Char :=
  (cs.drop a).take (b - a)

/-- JS `s.replace('#', '')`: deletes the first occurrence of `#`. -/
def removeFirstHash : List Char → List Char
  | [] => []
  | '#' :: rest => rest
  | c :: rest => c :: removeFirstHash rest

/-- One lowercase hex digit (JS `Number.prototype.toString(16)` digit). -/
def toHex1 (n : Nat) : Char :=
  if n < 10 then Char.ofNat (48 + n) else Char.ofNat (87 + n)

/-- JS `n.toString(16).padStart(2, '0')` for `n ≤ 255`: two lowercase hex
digits.  (All channel values the repository encodes lie in `[0, 255]`.) -/
def toHexPad2 (n : Nat) : String :=
  String.mk [toHex1 (n / 16 % 16), toHex1 (n % 16)]

/-- JS `s.substring(0, n)` (`String.prototype.substring` from index 0). -/
def jsSubstring0 (s : String) (n : Nat) : String :=
  String.mk (s.data.take n)

/-- Channels of a well-formed `#RRGGBB` color string, `none` otherwise. -/
def hexChannels (s : String) : Option (Nat × Nat × Nat) :=
  match s.data with
  | ['#', d1, d2, d3, d4, d5, d6] =>
    if isHexDigitChar d1 && isHexDigitChar d2 && isHexDigitChar d3 &&
       isHexDigitChar d4 && isHexDigitChar d5 && isHexDigitChar d6 then
      some (16 * hexVal d1 + hexVal d2, 16 * hexVal d3 + hexVal d4,
            16 * hexVal d5 + hexVal d6)
    else none
  | _ => none

/-!
IEEE-754 binary64 model.  A nonnegative double is represented exactly as a
dyadic pair `(m, e)` with value `m · 2^e`; each JS operation computes the
exact result and rounds it to 53 significant bits, half to even.  All values
arising in the repository are far inside the normal range, so overflow and
subnormals play no role.
-/

/-- Bit length of a natural number (`0 ↦ 0`), with structural fuel so that it
reduces in the kernel; 512 bits covers every value handled here. -/
def bitLenGo : Nat → Nat → Nat
  | 0, _ => 0
  | fuel + 1, n => if n = 0 then 0 else bitLenGo fuel (n / 2) + 1

/-- Bit length of a natural number. -/
def bitLen (n : Nat) : Nat :=
  bitLenGo 512 n

/-- Does `p / q < 2^e` hold (for positive `p`, `q`)? -/
def ltPow2 (p q : Nat) (e : Int) : Bool :=
  if 0 ≤ e then p < q * 2 ^ e.toNat else p * 2 ^ (-e).toNat < q

/-- Round `P / Q` to the nearest integer, half to even. -/
def roundMantissa (P Q : Nat) : Nat :=
  let f := P / Q
  let rem := P % Q
  if 2 * rem < Q then f
  else if Q < 2 * rem then f + 1
  else if f % 2 = 0 then f else f + 1

/-- Nearest binary64 value to the positive rational `p / q`, as a dyadic
pair: scale into `[2^52, 2^53)` and round the mantissa half to even. -/
def roundPosRat (p q : Nat) : Nat × Int :=
  let e0 : Int := (bitLen p : Int) - (bitLen q : Int)
  let e := if ltPow2 p q e0 then e0 - 1 else e0
  let shift : Int := 52 - e
  let n :=
    if 0 ≤ shift then roundMantissa (p * 2 ^ shift.toNat) q
    else roundMantissa p (q * 2 ^ (-shift).toNat)
  (n, e - 52)

/-- Round an exact dyadic value to binary64. -/
def dyRound (m : Nat) (e : Int) : Nat × Int :=
  if m = 0 then (0, 0)
  else if 0 ≤ e then roundPosRat (m * 2 ^ e.toNat) 1
  else roundPosRat m (2 ^ (-e).toNat)

/-- Binary64 product of a double and an exact natural number. -/
def dyMulNat (d : Nat × Int) (k : Nat) : Nat × Int :=
  dyRound (d.1 * k) d.2

/-- Binary64 sum of two doubles: align, add exactly, round. -/
def dyAdd (a b : Nat × Int) : Nat × Int :=
  let em := min a.2 b.2
  dyRound (a.1 * 2 ^ (a.2 - em).toNat + b.1 * 2 ^ (b.2 - em).toNat) em

/-- Binary64 quotient of a double by an exact natural number. -/
def dyDivNat (d : Nat × Int) (k : Nat) : Nat × Int :=
  if d.1 = 0 then (0, 0)
  else if 0 ≤ d.2 then roundPosRat (d.1 * 2 ^ d.2.toNat) k
  else roundPosRat d.1 (k * 2 ^ (-d.2).toNat)

/-- Is the dyadic value `m · 2^e` strictly greater than `1/2`? -/
def dyGtHalf (d : Nat × Int) : Bool :=
  if 0 ≤ d.2 + 1 then 1 < d.1 * 2 ^ (d.2 + 1).toNat
  else 2 ^ (-(d.2 + 1)).toNat < d.1

/-- The binary64 value of the JS literal `0.299`. -/
def fl299dy : Nat × Int := roundPosRat 299 1000

/-- The binary64 value of the JS literal `0.587`. -/
def fl587dy : Nat × Int := roundPosRat 587 1000

/-- The binary64 value of the JS literal `0.114`. -/
def fl114dy : Nat × Int := roundPosRat 114 1000

/-- The luminance computed by `ImageGenerator.getContrastColor` in JS
binary64 arithmetic: `(0.299 * r + 0.587 * g + 0.114 * b) / 255` with every
operation rounded to the nearest double (`+` is left-associative in JS). -/
def floatLumDy (r g b : Nat) : Nat × Int :=
  dyDivNat (dyAdd (dyAdd (dyMulNat fl299dy r) (dyMulNat fl587dy g))
    (dyMulNat fl114dy b)) 255

/-- The comparison `luminance > 0.5` exactly as JS evaluates it. -/
def lumGtHalf (r g b : Nat) : Bool :=
  dyGtHalf (floatLumDy r g b)

/-- The exact relative luminance named by the specification:
`L = (0.299·R + 0.587·G + 0.114·B) / 255` over exact rationals. -/
def specLuminance (r g b : Nat) : ℚ :=
  ((299 : ℚ) / 1000 * r + (587 : ℚ) / 1000 * g + (114 : ℚ) / 1000 * b) / 255

/-- Lowercase hex digit test (`0-9a-f`). -/
def isLowerHexDigit (ch : Char) : Bool :=
  match ch with
  | '0' => true | '1' => true | '2' => true | '3' => true | '4' => true
  | '5' => true | '6' => true | '7' => true | '8' => true | '9' => true
  | 'a' => true | 'b' => true | 'c' => true | 'd' => true | 'e' => true | 'f' => true
  | _ => false

/-- `#` followed by six lowercase hex digits. -/
def isLowerHexColor (s : String) : Bool :=
  match s.data with
  | '#' :: rest => rest.length == 6 && rest.all isLowerHexDigit
  | _ => false

/-- Canvas configuration (`src/types.ts`): width/height plus the three
derived colors. -/
structure CanvasConfig where
  width : ℚ
  height : ℚ
  backgroundColor : String
  textColor : String
  accentColor : String
deriving DecidableEq

/-- Text variation (`src/types.ts`): the five copy fields. -/
structure TextVariation where
  title : String
  subtitle : String
  callToAction : String
  description : String
  tone : String
deriving DecidableEq

namespace ImageGenerator

/-- One encoded channel of `ImageGenerator.darkenColor`:
`Math.floor(channel * (1 - factor)).toString(16).padStart(2, '0')`.
`none` is the `NaN` path (`parseInt` failed), where JS produces the text
`"NaN"`.  For `factor ∈ [0, 1]` (the only factors the repository uses) the
floored value lies in `[0, 255]`, where `toHexPad2` matches JS exactly. -/
def darkPart (c? : Option Nat) (factor : ℚ) : String :=
  match c? with
  | some c => toHexPad2 (Int.toNat ⌊(c : ℚ) * (1 - factor)⌋)
  | none => "NaN"

/-- `ImageGenerator.darkenColor` (interactive.ts, ImageGenerator part,
lines 623-639): strip the first `#`, parse the three channel substrings,
multiply by `(1 - factor)`, floor, and re-encode lowercase. -/
def darkenColorData (l : List Char) (factor : ℚ) : String :=
  let hex := removeFirstHash l
  let r? := jsParseIntHex (jsSub hex 0 2)
  let g? := jsParseIntHex (jsSub hex 2 4)
  let b? := jsParseIntHex (jsSub hex 4 6)
  "#" ++ darkPart r? factor ++ darkPart g? factor ++ darkPart b? factor

/-- String-level wrapper of `darkenColorData`. -/
def darkenColor (color : String) (factor : ℚ) : String :=
  darkenColorData color.data factor

/-- `ImageGenerator.getContrastColor` (interactive.ts, ImageGenerator part,
lines 641-652): luminance over the parsed channels, black above `0.5`, white
otherwise.  The `NaN` path (any channel failing to parse) makes the JS
comparison false, hence white — the catch-all match arm. -/
def getContrastColorData (l : List Char) : String :=
  let hex := removeFirstHash l
  match jsParseIntHex (jsSub hex 0 2), jsParseIntHex (jsSub hex 2 4),
      jsParseIntHex (jsSub hex 4 6) with
  | some r, some g, some b =>
    if lumGtHalf r g b then "#000000" else "#FFFFFF"
  | _, _, _ => "#FFFFFF"

/-- String-level wrapper of `getContrastColorData`. -/
def getContrastColor (backgroundColor : String) : String :=
  getContrastColorData backgroundColor.data

/-- The `charsPerLine` estimate of `ImageGenerator.createMultilineText`:
`Math.floor(maxWidth / (fontSize * 0.6))`, modelled over exact rationals.
Binary64 rounding can shift the floored estimate only at isolated boundary
inputs, and the wrap theorems below hold for an arbitrary integer threshold,
so nothing depends on that difference.  (For `fontSize = 0` JS yields
`Infinity` while this model yields `0`; the repository always calls with
`fontSize ≥ 14`.) -/
def charsPerLine (fontSize maxWidth : ℚ) : Int :=
  ⌊maxWidth / (fontSize * (6 / 10))⌋

/-- The word-appending loop of `createMultilineText` (interactive.ts,
ImageGenerator part, lines 589-597).  `current` is `currentLine`; the length
check `(currentLine + word).length <= charsPerLine` does not count the
joining space that is then inserted. -/
def wrapGo (c : Int) (current : String) : List String → List String
  | [] => if current = "" then [] else [current]
  | w :: ws =>
    if ((current ++ w).length : Int) ≤ c then
      wrapGo c (current ++ (if current = "" then "" else " ") ++ w) ws
    else
      if current = "" then wrapGo c w ws
      else current :: wrapGo c w ws

/-- Greedy wrap of a word list against a character threshold. -/
def wrapWords (c : Int) (words : List String) : List String :=
  wrapGo c "" words

/-- JS `text.split(' ')` helper: accumulates the current chunk (reversed). -/
def jsSplitSpaceAux : List Char → List Char → List String
  | [], acc => [String.mk acc.reverse]
  | ch :: cs, acc =>
    if ch = ' ' then String.mk acc.reverse :: jsSplitSpaceAux cs []
    else jsSplitSpaceAux cs (ch :: acc)

/-- JS `text.split(' ')`: splits at every single space; `"" ↦ [""]`,
consecutive spaces yield empty chunks. -/
def jsSplitSpace (text : String) : List String :=
  jsSplitSpaceAux text.data []

/-- The lines emitted by `ImageGenerator.createMultilineText` (interactive.ts,
ImageGenerator part, lines 574-612); the surrounding markup and the
`y + index * fontSize * 1.2` stacking do not affect the line contents. -/
def createMultilineTextLines (text : String) (fontSize maxWidth : ℚ) :
    List String :=
  wrapWords (charsPerLine fontSize maxWidth) (jsSplitSpace text)

/-- The responsive sizes and anchor positions computed at the top of
`ImageGenerator.createSVG` (interactive.ts, ImageGenerator part,
lines 476-486).  The fractions are exact here; binary64 rounding perturbs
them by at most one part in `2^52` and plays no role in the claims. -/
structure SVGLayout where
  titleSize : ℚ
  subtitleSize : ℚ
  descriptionSize : ℚ
  ctaSize : ℚ
  centerX : ℚ
  titleY : ℚ
  subtitleY : ℚ
  descriptionY : ℚ
  ctaY : ℚ
deriving DecidableEq

/-- Layout block of `ImageGenerator.createSVG`. -/
def svgLayout (config : CanvasConfig) : SVGLayout :=
  let titleSize := max 24 (config.width * (5 / 100))
  let subtitleSize := max 18 (config.width * (35 / 1000))
  let descriptionSize := max 14 (config.width * (25 / 1000))
  let ctaSize := max 16 (config.width * (3 / 100))
  let centerX := config.width / 2
  let titleY := config.height * (25 / 100)
  let subtitleY := titleY + titleSize + 20
  let descriptionY := config.height * (55 / 100)
  let ctaY := config.height * (80 / 100)
  { titleSize := titleSize, subtitleSize := subtitleSize,
    descriptionSize := descriptionSize, ctaSize := ctaSize, centerX := centerX,
    titleY := titleY, subtitleY := subtitleY, descriptionY := descriptionY,
    ctaY := ctaY }

end ImageGenerator

/-- Pixel dimensions of one output format (`src/types.ts`). -/
structure PromoSize where
  width : ℚ
  height : ℚ
deriving DecidableEq

/-- The three target-format sizes of `PromoConfig.sizes` (`src/types.ts`). -/
structure PromoSizes where
  facebook : PromoSize
  instagram : PromoSize
  story : PromoSize
deriving DecidableEq

/-- The promotional brief (`src/types.ts`, `PromoConfig`). -/
structure PromoConfig where
  product : String
  businessType : String
  offer : String
  validity : String
  location : String
  phone : String
  schedule : String
  colors : List String
  sizes : PromoSizes
deriving DecidableEq

/-- Output format tag (`src/types.ts`, `GeneratedFlyer.format`). -/
inductive Format where
  | facebook
  | instagram
  | story
deriving DecidableEq

/-- The string interpolated for a format tag. -/
def Format.toTag : Format → String
  | Format.facebook => "facebook"
  | Format.instagram => "instagram"
  | Format.story => "story"

/-- One successfully rendered output (`src/types.ts`, `GeneratedFlyer`). -/
structure GeneratedFlyer where
  filename : String
  textVariation : TextVariation
  color : String
  format : Format
deriving DecidableEq

/-- A parsed JSON value, as produced by a successful `JSON.parse`. -/
inductive Json where
  | null
  | bool (b : Bool)
  | num (n : Int)
  | str (s : String)
  | arr (elems : List Json)
  | obj (fields : List (String × Json))

namespace TextGenerator

/-- JS `'k' in v` for a parsed JSON object. -/
def jsonHasKey (fields : List (String × Json)) (k : String) : Bool :=
  fields.any (fun p => p.1 == k)

/-- The validation filter of `TextGenerator.parseResponse`: keep a parsed
element only when it is a (non-null) object carrying all five fields.
Parsed arrays and primitives fail the `'title' in v` test in JS just as they
fail this match. -/
def hasVariationFields : Json → Bool
  | Json.obj fields =>
    jsonHasKey fields "title" && jsonHasKey fields "subtitle" &&
    jsonHasKey fields "callToAction" && jsonHasKey fields "description" &&
    jsonHasKey fields "tone"
  | _ => false

/-- Read a field of a kept object as a string.  The TS code performs an
unchecked cast (`JSON.parse(response) as TextVariation[]`) and never converts
field values; only string payloads are meaningful downstream, and none of the
claims depend on the content of AI-sourced fields. -/
def jsonStrField (fields : List (String × Json)) (k : String) : String :=
  match fields.find? (fun p => p.1 == k) with
  | some (_, Json.str s) => s
  | _ => ""

/-- View of a kept JSON object as a `TextVariation`. -/
def jsonToVariation : Json → TextVariation
  | Json.obj fields =>
    { title := jsonStrField fields "title",
      subtitle := jsonStrField fields "subtitle",
      callToAction := jsonStrField fields "callToAction",
      description := jsonStrField fields "description",
      tone := jsonStrField fields "tone" }
  | _ => { title := "", subtitle := "", callToAction := "", description := "",
           tone := "" }

/-- `TextGenerator.parseResponse` (advanced-example.ts, TextGenerator part,
lines 1301-1326), applied to the outcome of `JSON.parse` on the response
text: `none` models a `JSON.parse` throw; a non-array top level makes
`variations.filter` throw a `TypeError`; both are caught and re-thrown as
the `Except.error`.  A parsed array is filtered to the complete objects. -/
def parseResponse (parsed : Option Json) : Except Unit (List TextVariation) :=
  match parsed with
  | some (Json.arr elems) =>
    Except.ok ((elems.filter hasVariationFields).map jsonToVariation)
  | some _ => Except.error ()
  | none => Except.error ()

/-- Outcome of the generative call in `TextGenerator.generateVariations`:
`failure` is a thrown API error or an absent `message.content`; `response p`
is returned content whose `JSON.parse` outcome is `p`. -/
inductive AIOutcome where
  | failure
  | response (parsed : Option Json)

/-- The fixed tone list of `TextGenerator.generateFallbackVariations`. -/
def baseTones : List String :=
  ["urgent", "elegant", "casual", "fun", "exclusive", "friendly",
   "informative", "inspiring"]

/-- English fallback titles, keyed by tone (advanced-example.ts,
lines 1424-1434). -/
def englishTitle (config : PromoConfig) : String → Option String
  | "urgent" => some ("Last Chance: " ++ config.offer ++ "!")
  | "elegant" => some ("Exclusive " ++ config.product ++ " for you")
  | "casual" => some ("Don\x27t miss this " ++ config.product ++ " deal!")
  | "fun" => some ("Party Time for " ++ config.product ++ "!")
  | "exclusive" => some ("VIP Access to " ++ config.product)
  | "friendly" => some ("Enjoy with family: " ++ config.product)
  | "informative" => some ("Learn about " ++ config.product ++ ": The Guide")
  | "inspiring" => some ("Transform your day with " ++ config.product)
  | _ => none

/-- Spanish fallback titles (advanced-example.ts, lines 1435-1444). -/
def spanishTitle (config : PromoConfig) : String → Option String
  | "urgent" => some ("¡Última Oportunidad: " ++ config.offer ++ "!")
  | "elegant" => some (config.product ++ " Exclusivo para ti")
  | "casual" => some ("¡No te pierdas esta oferta de " ++ config.product ++ "!")
  | "fun" => some ("¡Hora de " ++ config.product ++ "!")
  | "exclusive" => some ("Acceso VIP a " ++ config.product)
  | "friendly" => some ("Disfruta en familia: " ++ config.product)
  | "informative" => some ("Conoce " ++ config.product ++ ": La Guía")
  | "inspiring" => some ("Transforma tu día con " ++ config.product)
  | _ => none

/-- `TextGenerator.generateFallbackTitle`: language table (`??` falling back
to English), tone lookup with default, hard cap at 50 characters. -/
def generateFallbackTitle (config : PromoConfig) (tone language : String) :
    String :=
  let langTitles :=
    if language = "Spanish" then spanishTitle config else englishTitle config
  jsSubstring0 ((langTitles tone).getD ("Discover " ++ config.product ++
    " Now!")) 50

/-- English fallback subtitles (advanced-example.ts, lines 1460-1469). -/
def englishSubtitle (config : PromoConfig) : String → Option String
  | "urgent" => some (config.validity ++ ". Act fast!")
  | "elegant" => some "Superior quality and unmatched design await you."
  | "casual" => some ("Relax and enjoy " ++ config.product ++ ".")
  | "fun" => some ("Fun is guaranteed with " ++ config.product ++ ".")
  | "exclusive" => some "Unique benefits designed for select customers."
  | "friendly" => some "Create unforgettable memories with your loved ones."
  | "informative" => some "Everything you need to know before your purchase."
  | "inspiring" =>
    some ("Achieve your goals with the support of " ++ config.product ++ ".")
  | _ => none

/-- Spanish fallback subtitles (advanced-example.ts, lines 1470-1479). -/
def spanishSubtitle (config : PromoConfig) : String → Option String
  | "urgent" => some (config.validity ++ ". ¡Actúa rápido!")
  | "elegant" => some "Calidad superior y diseño inigualable te esperan."
  | "casual" => some ("Relájate y disfruta de " ++ config.product ++ ".")
  | "fun" =>
    some ("La diversión está garantizada con " ++ config.product ++ ".")
  | "exclusive" => some "Beneficios únicos diseñados para clientes selectos."
  | "friendly" => some "Crea recuerdos inolvidables con los tuyos."
  | "informative" => some "Todo lo que necesitas saber antes de tu compra."
  | "inspiring" =>
    some ("Alcanza tus metas con el apoyo de " ++ config.product ++ ".")
  | _ => none

/-- `TextGenerator.generateFallbackSubtitle`: table lookup (the `||` default
is only reached for unknown tones, since every table entry contains literal
text), hard cap at 80 characters. -/
def generateFallbackSubtitle (config : PromoConfig) (tone language : String) :
    String :=
  let langSubtitles :=
    if language = "Spanish" then spanishSubtitle config
    else englishSubtitle config
  jsSubstring0 ((langSubtitles tone).getD ("Take advantage of our offer on " ++
    config.product ++ ".")) 80

/-- English fallback calls to action (advanced-example.ts, lines 1491-1500). -/
def englishCTA : String → Option String
  | "urgent" => some "Book Now!"
  | "elegant" => some "Request Info"
  | "casual" => some "Try It Now!"
  | "fun" => some "Join the Party!"
  | "exclusive" => some "Access Here!"
  | "friendly" => some "Come With Us!"
  | "informative" => some "Read More"
  | "inspiring" => some "Start Today!"
  | _ => none

/-- Spanish fallback calls to action (advanced-example.ts, lines 1501-1510). -/
def spanishCTA : String → Option String
  | "urgent" => some "¡Reserva Ya!"
  | "elegant" => some "Solicita Info"
  | "casual" => some "¡Pruébalo!"
  | "fun" => some "¡Únete!"
  | "exclusive" => some "¡Accede Aquí!"
  | "friendly" => some "¡Ven con Nosotros!"
  | "informative" => some "Leer Más"
  | "inspiring" => some "¡Empieza Hoy!"
  | _ => none

/-- `TextGenerator.generateFallbackCTA`: hard cap at 30 characters. -/
def generateFallbackCTA (tone language : String) : String :=
  let langCtas := if language = "Spanish" then spanishCTA else englishCTA
  jsSubstring0 ((langCtas tone).getD "More Info!") 30

/-- JS falsy-string default: `s || d`. -/
def jsOrElse (s d : String) : String :=
  if s = "" then d else s

/-- English fallback descriptions (advanced-example.ts, lines 1524-1537). -/
def englishDescription (config : PromoConfig) : String → Option String
  | "urgent" =>
    some ("Don\x27t miss this special offer on " ++ config.product ++
      ". Valid only until " ++ config.validity ++ ". Visit us at " ++
      jsOrElse config.location "our store" ++ "!")
  | "elegant" =>
    some ("Immerse yourself in the premium experience of " ++ config.product ++
      ". Design and functionality come together for you.")
  | "casual" =>
    some ("Looking for something different? Our " ++ config.product ++
      " is perfect for your daily life.")
  | "fun" =>
    some ("Get ready for fun with " ++ config.product ++
      ". Ideal for any occasion!")
  | "exclusive" =>
    some ("A unique opportunity to access the best of " ++ config.product ++
      ". By invitation only!")
  | "friendly" =>
    some ("Unforgettable moments await you with " ++ config.product ++
      ". Ideal for sharing with family.")
  | "informative" =>
    some ("Discover the key features and benefits of " ++ config.product ++ ".")
  | "inspiring" =>
    some ("Take the next step towards your dreams with " ++
      config.product ++ ".")
  | _ => none

/-- Spanish fallback descriptions (advanced-example.ts, lines 1538-1551). -/
def spanishDescription (config : PromoConfig) : String → Option String
  | "urgent" =>
    some ("No dejes pasar esta oferta especial en " ++ config.product ++
      ". Válida solo hasta " ++ config.validity ++ ". ¡Visítanos en " ++
      jsOrElse config.location "nuestra tienda" ++ "!")
  | "elegant" =>
    some ("Sumérgete en la experiencia premium de " ++ config.product ++
      ". Diseño y funcionalidad se unen para ti.")
  | "casual" =>
    some ("¿Buscas algo diferente? Nuestro " ++ config.product ++
      " es perfecto para tu día a día.")
  | "fun" =>
    some ("Prepárate para la diversión con " ++ config.product ++
      ". ¡Ideal para cualquier ocasión!")
  | "exclusive" =>
    some ("Una oportunidad única para acceder a lo mejor de " ++
      config.product ++ ". ¡Solo por invitación!")
  | "friendly" =>
    some ("Momentos inolvidables te esperan con " ++ config.product ++
      ". Ideal para compartir en familia.")
  | "informative" =>
    some ("Descubre las características clave y beneficios de " ++
      config.product ++ ".")
  | "inspiring" =>
    some ("Da el siguiente paso hacia tus sueños con " ++ config.product ++ ".")
  | _ => none

/-- `TextGenerator.generateFallbackDescription` (the `index` parameter is
accepted but unused, as in the source): hard cap at 200 characters. -/
def generateFallbackDescription (config : PromoConfig) (tone : String)
    (index : Nat) (language : String) : String :=
  let langDescriptions :=
    if language = "Spanish" then spanishDescription config
    else englishDescription config
  jsSubstring0 ((langDescriptions tone).getD
    ("Take advantage of our incredible " ++ config.offer ++ " on " ++
      config.product ++ ". " ++ config.validity ++ ". Visit us at " ++
      config.location ++ ".")) 200

/-- One slot of the fallback loop: tone `baseTones[i % baseTones.length]`
(defined for every `i`, so the `tone || ''` guards are the identity), and
the four field generators. -/
def mkFallbackVariation (config : PromoConfig) (language : String) (i : Nat) :
    TextVariation :=
  let tone := baseTones.getD (i % baseTones.length) ""
  { title := generateFallbackTitle config tone language,
    subtitle := generateFallbackSubtitle config tone language,
    callToAction := generateFallbackCTA tone language,
    description := generateFallbackDescription config tone i language,
    tone := tone }

/-- Replace the first occurrence of `pat` (JS `s.replace(pat, rep)` with a
string pattern): prefix test. -/
def matchAt : List Char → List Char → Bool
  | [], _ => true
  | _ :: _, [] => false
  | p :: ps, c :: cs => p == c && matchAt ps cs

/-- Replace the first occurrence of `pat` in `s` by `rep`. -/
def replaceOnceData (pat rep : List Char) : List Char → List Char
  | [] => []
  | c :: cs =>
    if matchAt pat (c :: cs) then rep ++ (c :: cs).drop pat.length
    else c :: replaceOnceData pat rep cs

/-- String-level `replaceOnce`. -/
def replaceOnce (s pat rep : String) : String :=
  String.mk (replaceOnceData pat.data rep.data s.data)

/-- `TextGenerator.getFallbackTexts` (advanced-example.ts, lines 1395-1414):
the generic last-resort templates, `English`/`Spanish` with English default. -/
def getFallbackTexts (language : String) : String × String × String × String :=
  if language = "Spanish" then
    ("¡Oferta Especial de {product}!",
     "Descubre más sobre nuestro {product} hoy.",
     "¡Infórmate!",
     "Aprovecha la oportunidad de conocer {product} con nuestra oferta especial.")
  else
    ("Special Offer for {product}!",
     "Discover more about our {product} today.",
     "Learn More!",
     "Take advantage of the opportunity to discover {product} with our special offer.")

/-- The synthesized last-resort variation of `generateFallbackVariations`
(advanced-example.ts, lines 1373-1387). -/
def lastResortVariation (config : PromoConfig) (language : String) :
    TextVariation :=
  let texts := getFallbackTexts language
  { title := replaceOnce texts.1 "{product}" config.product,
    subtitle := replaceOnce texts.2.1 "{product}" config.product,
    callToAction := texts.2.2.1,
    description := replaceOnce texts.2.2.2 "{product}" config.product,
    tone := "general" }

/-- `TextGenerator.generateFallbackVariations` (advanced-example.ts,
lines 1337-1390): one tone-cycled variation per slot; the last-resort branch
guards against an empty result for positive quantity (unreachable, since the
loop emits exactly `quantity` variations). -/
def generateFallbackVariations (config : PromoConfig) (quantity : Nat)
    (language : String := "English") : List TextVariation :=
  let fallbackVariations :=
    (List.range quantity).map (mkFallbackVariation config language)
  if fallbackVariations.length = 0 ∧ 0 < quantity then
    [lastResortVariation config language]
  else fallbackVariations

/-- `TextGenerator.generateVariations` (advanced-example.ts, lines 1129-1171):
any thrown error — API failure, absent content, or a `parseResponse` throw —
is caught and answered with the Fallback Bank; a successfully parsed list is
returned as-is. -/
def generateVariations (config : PromoConfig) (quantity : Nat)
    (language : String := "English") (ai : AIOutcome) : List TextVariation :=
  match ai with
  | AIOutcome.failure => generateFallbackVariations config quantity language
  | AIOutcome.response parsed =>
    match parseResponse parsed with
    | Except.ok variations => variations
    | Except.error _ => generateFallbackVariations config quantity language

end TextGenerator

namespace FlyerGenerator

/-- Part of one channel of `FlyerGenerator.getAccentColor`:
`(255 - c + 100) % 256` then `Math.min(255, Math.max(0, ·))`; the `NaN` path
(failed `parseInt`) renders as the text `"NaN"` after `toString(16)` and an
inert `padStart`. -/
def accentPart (c? : Option Nat) : String :=
  match c? with
  | some c => toHexPad2 (min 255 (max 0 ((255 - c + 100) % 256)))
  | none => "NaN"

/-- The validity guard of `getAccentColor`:
`!baseColor || !baseColor.startsWith('#') || baseColor.length !== 7`,
expressed on the character list (`#` head and six further characters). -/
def accentGuardOk (s : String) : Bool :=
  match s.data with
  | '#' :: rest => rest.length == 6
  | _ => false

/-- `FlyerGenerator.getAccentColor` (FlyerGenerator part, lines 307-336):
gold for malformed input; sky-blue when `r === g && g === b` (false in JS as
soon as one channel is `NaN`, hence the `isSome` conjunct); otherwise the
per-channel complementary heuristic. -/
def getAccentColor (baseColor : String := "#3498DB") : String :=
  if accentGuardOk baseColor = false then "#FFD700"
  else
    let hex := removeFirstHash baseColor.data
    let r? := jsParseIntHex (jsSub hex 0 2)
    let g? := jsParseIntHex (jsSub hex 2 4)
    let b? := jsParseIntHex (jsSub hex 4 6)
    if r?.isSome ∧ r? = g? ∧ g? = b? then "#00BFFF"
    else "#" ++ accentPart r? ++ accentPart g? ++ accentPart b?

/-- Cell color selection (FlyerGenerator part, line 69):
`config.colors[i % config.colors.length] || '#3498DB'` — an out-of-range
access (empty list) or an empty-string entry falls back to the default. -/
def cellColor (colors : List String) (i : Nat) : String :=
  match colors.get? (i % colors.length) with
  | some c => if c = "" then "#3498DB" else c
  | none => "#3498DB"

/-- The `CanvasConfig` built for one cell of
`FlyerGenerator.generateVariations` (lines 77-83): dimensions are always
taken from `config.sizes.facebook`. -/
def cellCanvas (config : PromoConfig) (color : String) : CanvasConfig :=
  { width := config.sizes.facebook.width,
    height := config.sizes.facebook.height,
    backgroundColor := color,
    textColor := ImageGenerator.getContrastColor color,
    accentColor := getAccentColor color }

/-- Filename of cell `i` (lines 86-88): `flyer_${i+1}_${tone}_${format}.png`
with `generic` for a falsy tone. -/
def cellFilename (i : Nat) (tone : String) (format : Format) : String :=
  "flyer_" ++ toString (i + 1) ++ "_" ++ (if tone = "" then "generic"
    else tone) ++ "_" ++ format.toTag ++ ".png"

/-- Output path of a filename (line 89): `join('./output_flyers', filename)`. -/
def outputPath (filename : String) : String :=
  "./output_flyers/" ++ filename

/-- One loop iteration of `FlyerGenerator.generateVariations` (lines 66-120):
pick the cycled variation and color, build the canvas, attempt the render
(`render` decides whether `imageGenerator.generateFlyer` succeeds or throws),
and push the flyer only on success.  The `if (textVariation)` guard is the
`some` match; a failed render is caught and yields nothing. -/
def cellFlyer? (config : PromoConfig) (tvs : List TextVariation)
    (render : TextVariation → CanvasConfig → String → Bool) (i : Nat) :
    Option GeneratedFlyer :=
  match tvs.get? (i % tvs.length) with
  | none => none
  | some tv =>
    let color := cellColor config.colors i
    let canvasConfig := cellCanvas config color
    let filename := cellFilename i tv.tone Format.facebook
    if render tv canvasConfig (outputPath filename) then
      some { filename := filename, textVariation := tv, color := color,
             format := Format.facebook }
    else none

/-- The cell loop, `i` counting up with `k` iterations left. -/
def runCellsGo (config : PromoConfig) (tvs : List TextVariation)
    (render : TextVariation → CanvasConfig → String → Bool) :
    Nat → Nat → List GeneratedFlyer
  | _, 0 => []
  | i, k + 1 =>
    match cellFlyer? config tvs render i with
    | some f => f :: runCellsGo config tvs render (i + 1) k
    | none => runCellsGo config tvs render (i + 1) k

/-- All `quantity` cells of the batch, in order. -/
def runCells (config : PromoConfig) (tvs : List TextVariation)
    (render : TextVariation → CanvasConfig → String → Bool) (quantity : Nat) :
    List GeneratedFlyer :=
  runCellsGo config tvs render 0 quantity

/-- The fatal error thrown when acquisition yields no variations (lines
53-57). -/
def fatalErrorMsg : String :=
  "❌ Could not generate text variations. Flyer generation has been cancelled."

/-- `FlyerGenerator.generateVariations` (FlyerGenerator part, lines 38-124):
acquire the text variations once (the TS call passes no language, so the
`'English'` default applies), abort fatally when the list is empty, then run
every cell, skipping failed renders.  Filesystem setup
(`ensureOutputDirectory`) is an external collaborator outside the model. -/
def generateVariations (config : PromoConfig) (quantity : Nat)
    (ai : TextGenerator.AIOutcome)
    (render : TextVariation → CanvasConfig → String → Bool) :
    Except String (List GeneratedFlyer) :=
  let textVariations :=
    TextGenerator.generateVariations config quantity "English" ai
  if textVariations.length = 0 then Except.error fatalErrorMsg
  else Except.ok (runCells config textVariations render quantity)

/-- The generic brief synthesized by `generateCustomVariations`
(lines 359-373). -/
def quickConfig (product offer : String) (colors : List String) : PromoConfig :=
  { product := product,
    businessType := "local business",
    offer := offer,
    validity := "Limited time offer",
    location := "Visit our store!",
    phone := "Call us at (555) 123-4567",
    schedule := "Open Monday to Saturday",
    colors := colors,
    sizes := { facebook := { width := 1200, height := 630 },
               instagram := { width := 1080, height := 1080 },
               story := { width := 1080, height := 1920 } } }

/-- `FlyerGenerator.generateCustomVariations` (lines 348-377): synthesize the
generic brief and delegate to `generateVariations`. -/
def generateCustomVariations (product offer : String)
    (colors : List String := ["#3498DB", "#E74C3C", "#2ECC71"])
    (quantity : Nat) (ai : TextGenerator.AIOutcome)
    (render : TextVariation → CanvasConfig → String → Bool) :
    Except String (List GeneratedFlyer) :=
  generateVariations (quickConfig product offer colors) quantity ai render

end FlyerGenerator

/-- A concrete brief used by the witnesses (the `Pizza` scenario of the
specification's testable properties, §8). -/
def demoConfig : PromoConfig :=
  { product := "Pizza",
    businessType := "restaurant",
    offer := "50% off",
    validity := "Only this weekend",
    location := "Downtown Mall",
    phone := "+1 555-123-4567",
    schedule := "Mon-Sat 9AM-8PM",
    colors := ["#FF0000", "#00FF00", "#0000FF"],
    sizes := { facebook := { width := 1200, height := 630 },
               instagram := { width := 1080, height := 1080 },
               story := { width := 1080, height := 1920 } } }

/-- A concrete canvas used by the witnesses (the facebook format of
`demoConfig` with its derived colors). -/
def demoCanvas : CanvasConfig :=
  { width := 1200, height := 630, backgroundColor := "#FF0000",
    textColor := "#FFFFFF", accentColor := "#646363" }

/-! Shared lemmas about the character- and string-level helpers. -/

lemma hexVal_lt (ch : Char) : hexVal ch < 16 := by
  unfold hexVal
  split <;> omega

lemma toHex1_lower (d : Char) (h : isLowerHexDigit d = true) :
    toHex1 (hexVal d) = d := by
  unfold isLowerHexDigit at h
  split at h <;> first | rfl | exact absurd h (by decide)

lemma parse_pair (d1 d2 : Char) (h1 : isHexDigitChar d1 = true)
    (h2 : isHexDigitChar d2 = true) :
    jsParseIntHex [d1, d2] = some (16 * hexVal d1 + hexVal d2) := by
  simp only [jsParseIntHex, h1, if_true, parseHexDigits, h2,
    Option.some.injEq]
  omega

lemma hexChannels_some (s : String) (r g b : Nat)
    (h : hexChannels s = some (r, g, b)) :
    ∃ d1 d2 d3 d4 d5 d6,
      s.data = ['#', d1, d2, d3, d4, d5, d6] ∧
      (isHexDigitChar d1 = true ∧ isHexDigitChar d2 = true ∧
       isHexDigitChar d3 = true ∧ isHexDigitChar d4 = true ∧
       isHexDigitChar d5 = true ∧ isHexDigitChar d6 = true) ∧
      r = 16 * hexVal d1 + hexVal d2 ∧ g = 16 * hexVal d3 + hexVal d4 ∧
      b = 16 * hexVal d5 + hexVal d6 := by
  unfold hexChannels at h
  split at h
  case _ d1 d2 d3 d4 d5 d6 heq =>
    split at h
    case _ hd =>
      simp only [Option.some.injEq, Prod.mk.injEq] at h
      simp only [Bool.and_eq_true] at hd
      exact ⟨d1, d2, d3, d4, d5, d6, heq, by tauto, by tauto, by tauto,
        by tauto⟩
    case _ => exact absurd h (by simp)
  case _ => exact absurd h (by simp)

lemma str_data_append (a b : String) : (a ++ b).data = a.data ++ b.data := by
  cases a; cases b; rfl

lemma str_eq_of_data {a b : String} (h : a.data = b.data) : a = b := by
  cases a; cases b; exact congrArg String.mk h

lemma darkenColor_valid (s : String) (r g b : Nat) (f : ℚ)
    (h : hexChannels s = some (r, g, b)) :
    ImageGenerator.darkenColor s f =
      "#" ++ ImageGenerator.darkPart (some r) f ++
      ImageGenerator.darkPart (some g) f ++
      ImageGenerator.darkPart (some b) f := by
  obtain ⟨d1, d2, d3, d4, d5, d6, hd, ⟨h1, h2, h3, h4, h5, h6⟩, hr, hg, hb⟩ :=
    hexChannels_some s r g b h
  unfold ImageGenerator.darkenColor ImageGenerator.darkenColorData
  rw [hd]
  have e1 : jsParseIntHex
      (jsSub (removeFirstHash ['#', d1, d2, d3, d4, d5, d6]) 0 2) = some r := by
    show jsParseIntHex [d1, d2] = some r
    rw [parse_pair d1 d2 h1 h2, hr]
  have e2 : jsParseIntHex
      (jsSub (removeFirstHash ['#', d1, d2, d3, d4, d5, d6]) 2 4) = some g := by
    show jsParseIntHex [d3, d4] = some g
    rw [parse_pair d3 d4 h3 h4, hg]
  have e3 : jsParseIntHex
      (jsSub (removeFirstHash ['#', d1, d2, d3, d4, d5, d6]) 4 6) = some b := by
    show jsParseIntHex [d5, d6] = some b
    rw [parse_pair d5 d6 h5 h6, hb]
  dsimp only
  rw [e1, e2, e3]

lemma getContrastColor_valid (s : String) (r g b : Nat)
    (h : hexChannels s = some (r, g, b)) :
    ImageGenerator.getContrastColor s =
      if lumGtHalf r g b then "#000000" else "#FFFFFF" := by
  obtain ⟨d1, d2, d3, d4, d5, d6, hd, ⟨h1, h2, h3, h4, h5, h6⟩, hr, hg, hb⟩ :=
    hexChannels_some s r g b h
  unfold ImageGenerator.getContrastColor ImageGenerator.getContrastColorData
  rw [hd]
  have e1 : jsParseIntHex
      (jsSub (removeFirstHash ['#', d1, d2, d3, d4, d5, d6]) 0 2) = some r := by
    show jsParseIntHex [d1, d2] = some r
    rw [parse_pair d1 d2 h1 h2, hr]
  have e2 : jsParseIntHex
      (jsSub (removeFirstHash ['#', d1, d2, d3, d4, d5, d6]) 2 4) = some g := by
    show jsParseIntHex [d3, d4] = some g
    rw [parse_pair d3 d4 h3 h4, hg]
  have e3 : jsParseIntHex
      (jsSub (removeFirstHash ['#', d1, d2, d3, d4, d5, d6]) 4 6) = some b := by
    show jsParseIntHex [d5, d6] = some b
    rw [parse_pair d5 d6 h5 h6, hb]
  dsimp only
  rw [e1, e2, e3]

lemma darkPart_one (c : Nat) : ImageGenerator.darkPart (some c) 1 = "00" := by
  have hz : ((c : ℚ) * (1 - 1)) = 0 := by ring
  simp [ImageGenerator.darkPart, hz]
  decide

lemma darkPart_zero (c : Nat) :
    ImageGenerator.darkPart (some c) 0 = toHexPad2 c := by
  have ho : ((c : ℚ) * (1 - 0)) = (c : ℚ) := by ring
  simp [ImageGenerator.darkPart, ho]

lemma toHexPad2_split (v1 v2 : Nat) (h1 : v1 < 16) (h2 : v2 < 16) :
    toHexPad2 (16 * v1 + v2) = String.mk [toHex1 v1, toHex1 v2] := by
  have a1 : (16 * v1 + v2) / 16 % 16 = v1 := by omega
  have a2 : (16 * v1 + v2) % 16 = v2 := by omega
  rw [toHexPad2, a1, a2]

/-- C6 (amended): for every valid `#RRGGBB` color, `Darken(c, 1)` is pure
black; `Darken(c, 0)` returns `c` itself provided its hex digits are
lowercase — the re-encoding via `toString(16)` lowercases hex digits, so
uppercase inputs come back lowercased rather than unchanged. -/
theorem claim6_darken (s : String) (r g b : Nat)
    (h : hexChannels s = some (r, g, b)) :
    ImageGenerator.darkenColor s 1 = "#000000" ∧
    (isLowerHexColor s = true → ImageGenerator.darkenColor s 0 = s) := by
  constructor
  · rw [darkenColor_valid s r g b 1 h, darkPart_one, darkPart_one, darkPart_one]
    decide
  · intro hlow
    obtain ⟨d1, d2, d3, d4, d5, d6, hd, _, hr, hg, hb⟩ :=
      hexChannels_some s r g b h
    unfold isLowerHexColor at hlow
    rw [hd] at hlow
    simp only [List.all_cons, List.all_nil, Bool.and_eq_true,
      Bool.and_true] at hlow
    obtain ⟨l1, l2, l3, l4, l5, l6⟩ := by simpa using hlow.2
    rw [darkenColor_valid s r g b 0 h, darkPart_zero, darkPart_zero,
      darkPart_zero, hr, hg, hb,
      toHexPad2_split _ _ (hexVal_lt d1) (hexVal_lt d2),
      toHexPad2_split _ _ (hexVal_lt d3) (hexVal_lt d4),
      toHexPad2_split _ _ (hexVal_lt d5) (hexVal_lt d6),
      toHex1_lower d1 l1, toHex1_lower d2 l2, toHex1_lower d3 l3,
      toHex1_lower d4 l4, toHex1_lower d5 l5, toHex1_lower d6 l6]
    apply str_eq_of_data
    simp [str_data_append, hd]

/-- C6 counterexample: `Darken(c, 0) = c` fails as stated — the uppercase
valid color `#FF0000` is returned as `#ff0000`. -/
theorem claim6_counterexample :
    ¬ (∀ s : String, (hexChannels s).isSome = true →
        ImageGenerator.darkenColor s 0 = s) := by
  intro hall
  have h := hall "#FF0000" (by decide)
  have hv : ImageGenerator.darkenColor "#FF0000" 0 =
      "#" ++ toHexPad2 255 ++ toHexPad2 0 ++ toHexPad2 0 := by
    rw [darkenColor_valid "#FF0000" 255 0 0 0 (by decide)]
    simp only [darkPart_zero]
  rw [hv] at h
  exact absurd h (by decide)

theorem claim6_witness :
    hexChannels "#ff0000" = some (255, 0, 0) ∧
    (ImageGenerator.darkenColor "#ff0000" 1 = "#000000" ∧
     (isLowerHexColor "#ff0000" = true →
       ImageGenerator.darkenColor "#ff0000" 0 = "#ff0000")) :=
  ⟨by decide, claim6_darken "#ff0000" 255 0 0 (by decide)⟩

/-- C7 (amended): for every valid `#RRGGBB` color, `Contrast` returns pure
black or pure white, black exactly when the binary64 evaluation of
`(0.299·R + 0.587·G + 0.114·B)/255 > 0.5` is true.  This agrees with the
exact-rational threshold of the claim except where the exact luminance equals
`0.5`; see the counterexample. -/
theorem claim7_contrast (s : String) (r g b : Nat)
    (h : hexChannels s = some (r, g, b)) :
    (ImageGenerator.getContrastColor s = "#000000" ∨
     ImageGenerator.getContrastColor s = "#FFFFFF") ∧
    (ImageGenerator.getContrastColor s = "#000000" ↔
      lumGtHalf r g b = true) := by
  rw [getContrastColor_valid s r g b h]
  by_cases hc : lumGtHalf r g b = true
  · rw [if_pos hc]
    exact ⟨Or.inl rfl, iff_of_true rfl hc⟩
  · rw [if_neg hc]
    exact ⟨Or.inr rfl, iff_of_false (by decide) hc⟩

/-- C7 counterexample: for `#DA3AF8` the exact luminance is exactly `1/2`,
not greater, so the claim demands pure white; the code's binary64 evaluation
of the same expression exceeds `0.5` and the code returns pure black. -/
theorem claim7_counterexample :
    hexChannels "#da3af8" = some (218, 58, 248) ∧
    specLuminance 218 58 248 = 1 / 2 ∧
    ¬ ((1 : ℚ) / 2 < specLuminance 218 58 248) ∧
    ImageGenerator.getContrastColor "#da3af8" = "#000000" ∧
    "#000000" ≠ "#FFFFFF" :=
  ⟨by decide, by norm_num [specLuminance], by norm_num [specLuminance],
   by decide, by decide⟩

theorem claim7_witness :
    hexChannels "#ff0000" = some (255, 0, 0) ∧
    ((ImageGenerator.getContrastColor "#ff0000" = "#000000" ∨
      ImageGenerator.getContrastColor "#ff0000" = "#FFFFFF") ∧
     (ImageGenerator.getContrastColor "#ff0000" = "#000000" ↔
       lumGtHalf 255 0 0 = true)) :=
  ⟨by decide, claim7_contrast "#ff0000" 255 0 0 (by decide)⟩

/-- C8 (amended): `Accent` returns the gold fallback exactly on inputs
failing the malformedness check (no leading `#` or length other than 7), and
on a valid six-hex-digit color it returns sky-blue for achromatic input and
otherwise the per-channel `(255 - channel + 100) mod 256` heuristic (the
clamp is inert after the `mod`).  Well-shaped inputs whose digits are not all
hex fall into none of these buckets; see the counterexample. -/
theorem claim8_accent (s : String) (r g b : Nat)
    (h : hexChannels s = some (r, g, b)) :
    (FlyerGenerator.getAccentColor s =
      if r = g ∧ g = b then "#00BFFF"
      else "#" ++ toHexPad2 (min 255 (max 0 ((255 - r + 100) % 256))) ++
        toHexPad2 (min 255 (max 0 ((255 - g + 100) % 256))) ++
        toHexPad2 (min 255 (max 0 ((255 - b + 100) % 256)))) ∧
    (∀ t : String, FlyerGenerator.accentGuardOk t = false →
      FlyerGenerator.getAccentColor t = "#FFD700") := by
  constructor
  · obtain ⟨d1, d2, d3, d4, d5, d6, hd, ⟨h1, h2, h3, h4, h5, h6⟩, hr, hg, hb⟩ :=
      hexChannels_some s r g b h
    have hguard : FlyerGenerator.accentGuardOk s = true := by
      unfold FlyerGenerator.accentGuardOk
      rw [hd]
      rfl
    unfold FlyerGenerator.getAccentColor
    rw [hguard, if_neg (by decide), hd]
    have e1 : jsParseIntHex
        (jsSub (removeFirstHash ['#', d1, d2, d3, d4, d5, d6]) 0 2) =
        some r := by
      show jsParseIntHex [d1, d2] = some r
      rw [parse_pair d1 d2 h1 h2, hr]
    have e2 : jsParseIntHex
        (jsSub (removeFirstHash ['#', d1, d2, d3, d4, d5, d6]) 2 4) =
        some g := by
      show jsParseIntHex [d3, d4] = some g
      rw [parse_pair d3 d4 h3 h4, hg]
    have e3 : jsParseIntHex
        (jsSub (removeFirstHash ['#', d1, d2, d3, d4, d5, d6]) 4 6) =
        some b := by
      show jsParseIntHex [d5, d6] = some b
      rw [parse_pair d5 d6 h5 h6, hb]
    dsimp only
    rw [e1, e2, e3]
    simp only [Option.isSome_some, Option.some.injEq, true_and]
    rfl
  · intro t ht
    unfold FlyerGenerator.getAccentColor
    exact if_pos ht

/-- C8 counterexample: the well-shaped non-hex input `#GGGGGG` passes the
malformedness check but parses to `NaN` channels; `NaN === NaN` is false, so
the achromatic branch is skipped and the code emits the non-color text
`#NaNNaNNaN` — neither gold, nor sky-blue, nor any per-channel hex color. -/
theorem claim8_counterexample :
    FlyerGenerator.accentGuardOk "#GGGGGG" = true ∧
    FlyerGenerator.getAccentColor "#GGGGGG" = "#NaNNaNNaN" ∧
    "#NaNNaNNaN" ≠ "#FFD700" ∧ "#NaNNaNNaN" ≠ "#00BFFF" ∧
    hexChannels "#NaNNaNNaN" = none :=
  ⟨by decide, by decide, by decide, by decide, by decide⟩

theorem claim8_witness :
    hexChannels "#8B5CF6" = some (139, 92, 246) ∧
    ((FlyerGenerator.getAccentColor "#8B5CF6" =
      if 139 = 92 ∧ 92 = 246 then "#00BFFF"
      else "#" ++ toHexPad2 (min 255 (max 0 ((255 - 139 + 100) % 256))) ++
        toHexPad2 (min 255 (max 0 ((255 - 92 + 100) % 256))) ++
        toHexPad2 (min 255 (max 0 ((255 - 246 + 100) % 256)))) ∧
     (∀ t : String, FlyerGenerator.accentGuardOk t = false →
       FlyerGenerator.getAccentColor t = "#FFD700")) :=
  ⟨by decide, claim8_accent "#8B5CF6" 139 92 246 (by decide)⟩

/-- C9 (confirmed): the compositor anchors the title at 25% of canvas
height, the description block at 55%, the CTA at 80%, the title font size is
`max(24, width × 0.05)` and hence never below 24px, and the whole layout is a
function of width and height alone — independent of the format that produced
the canvas. -/
theorem claim9_layout (c1 c2 : CanvasConfig) (hw : c1.width = c2.width)
    (hh : c1.height = c2.height) :
    (ImageGenerator.svgLayout c1).titleY = c1.height * (25 / 100) ∧
    (ImageGenerator.svgLayout c1).descriptionY = c1.height * (55 / 100) ∧
    (ImageGenerator.svgLayout c1).ctaY = c1.height * (80 / 100) ∧
    (ImageGenerator.svgLayout c1).titleSize = max 24 (c1.width * (5 / 100)) ∧
    24 ≤ (ImageGenerator.svgLayout c1).titleSize ∧
    ImageGenerator.svgLayout c1 = ImageGenerator.svgLayout c2 := by
  refine ⟨rfl, rfl, rfl, rfl, le_max_left _ _, ?_⟩
  unfold ImageGenerator.svgLayout
  rw [hw, hh]

theorem claim9_witness :
    demoCanvas.width = demoCanvas.width ∧
    demoCanvas.height = demoCanvas.height ∧
    ((ImageGenerator.svgLayout demoCanvas).titleY =
      demoCanvas.height * (25 / 100) ∧
     (ImageGenerator.svgLayout demoCanvas).descriptionY =
      demoCanvas.height * (55 / 100) ∧
     (ImageGenerator.svgLayout demoCanvas).ctaY =
      demoCanvas.height * (80 / 100) ∧
     (ImageGenerator.svgLayout demoCanvas).titleSize =
      max 24 (demoCanvas.width * (5 / 100)) ∧
     24 ≤ (ImageGenerator.svgLayout demoCanvas).titleSize ∧
     ImageGenerator.svgLayout demoCanvas = ImageGenerator.svgLayout demoCanvas) :=
  ⟨rfl, rfl, claim9_layout demoCanvas demoCanvas rfl rfl⟩

lemma str_length_append (a b : String) :
    (a ++ b).length = a.length + b.length := by
  show (a ++ b).data.length = a.data.length + b.data.length
  rw [str_data_append, List.length_append]

lemma append_word_len (current w : String) (c : Int)
    (hfit : ((current ++ w).length : Int) ≤ c) :
    ((current ++ (if current = "" then "" else " ") ++ w).length : Int) ≤
      c + 1 := by
  have l1 : (current ++ (if current = "" then "" else " ") ++ w).length =
      current.length + (if current = "" then "" else " ").length + w.length := by
    rw [str_length_append, str_length_append]
  have l2 : (current ++ w).length = current.length + w.length :=
    str_length_append _ _
  rw [l1]
  rw [l2] at hfit
  by_cases h : current = ""
  · rw [if_pos h]
    push_cast at hfit ⊢
    have e0 : ("" : String).length = 0 := rfl
    rw [e0]
    omega
  · rw [if_neg h]
    push_cast at hfit ⊢
    have e1 : (" " : String).length = 1 := rfl
    rw [e1]
    omega

lemma wrapGo_mem (c : Int) (ws : List String) (current : String) (l : String)
    (hl : l ∈ ImageGenerator.wrapGo c current ws) :
    (l.length : Int) ≤ c + 1 ∨
    ((c : Int) < l.length ∧ (l ∈ ws ∨ (l = current ∧ current ≠ ""))) := by
  induction ws generalizing current with
  | nil =>
    unfold ImageGenerator.wrapGo at hl
    by_cases h : current = ""
    · rw [if_pos h] at hl
      simp at hl
    · rw [if_neg h] at hl
      rcases List.mem_singleton.mp hl with rfl
      rcases le_or_lt (l.length : Int) (c + 1) with hle | hgt
      · exact Or.inl hle
      · exact Or.inr ⟨by omega, Or.inr ⟨rfl, h⟩⟩
  | cons w ws ih =>
    unfold ImageGenerator.wrapGo at hl
    split at hl
    case isTrue hfit =>
      rcases ih _ hl with hle | ⟨hgt, hmem | ⟨rfl, hne⟩⟩
      · exact Or.inl hle
      · exact Or.inr ⟨hgt, Or.inl (List.mem_cons_of_mem _ hmem)⟩
      · exact Or.inl (append_word_len current w c hfit)
    case isFalse hfit =>
      split at hl
      case isTrue hcur =>
        rcases ih _ hl with hle | ⟨hgt, hmem | ⟨rfl, hne⟩⟩
        · exact Or.inl hle
        · exact Or.inr ⟨hgt, Or.inl (List.mem_cons_of_mem _ hmem)⟩
        · exact Or.inr ⟨hgt, Or.inl (List.mem_cons_self _ _)⟩
      case isFalse hcur =>
        rcases List.mem_cons.mp hl with rfl | hl'
        · rcases le_or_lt (l.length : Int) (c + 1) with hle | hgt
          · exact Or.inl hle
          · exact Or.inr ⟨by omega, Or.inr ⟨rfl, hcur⟩⟩
        · rcases ih _ hl' with hle | ⟨hgt, hmem | ⟨rfl, hne⟩⟩
          · exact Or.inl hle
          · exact Or.inr ⟨hgt, Or.inl (List.mem_cons_of_mem _ hmem)⟩
          · exact Or.inr ⟨hgt, Or.inl (List.mem_cons_self _ _)⟩

lemma wrapGo_self_mem (c : Int) (current : String)
    (hc : (c : Int) < current.length) (hne : current ≠ "")
    (ws : List String) : current ∈ ImageGenerator.wrapGo c current ws := by
  cases ws with
  | nil =>
    unfold ImageGenerator.wrapGo
    rw [if_neg hne]
    exact List.mem_singleton_self _
  | cons w ws =>
    unfold ImageGenerator.wrapGo
    have hnofit : ¬ (((current ++ w).length : Int) ≤ c) := by
      rw [str_length_append]
      push_cast
      omega
    rw [if_neg hnofit, if_neg hne]
    exact List.mem_cons_self _ _

lemma wrap_overlong (c : Int) (ws : List String) (current w : String)
    (hw : w ∈ ws) (hlen : (c : Int) < w.length) (hne : w ≠ "") :
    w ∈ ImageGenerator.wrapGo c current ws := by
  induction ws generalizing current with
  | nil => cases hw
  | cons w' ws ih =>
    rcases List.mem_cons.mp hw with rfl | hw'
    · unfold ImageGenerator.wrapGo
      have hnofit : ¬ (((current ++ w).length : Int) ≤ c) := by
        rw [str_length_append]
        push_cast
        omega
      rw [if_neg hnofit]
      by_cases hcur : current = ""
      · rw [if_pos hcur]
        exact wrapGo_self_mem c w hlen hne ws
      · rw [if_neg hcur]
        exact List.mem_cons_of_mem _ (wrapGo_self_mem c w hlen hne ws)
    · unfold ImageGenerator.wrapGo
      split
      · exact ih _ hw'
      · split
        · exact ih _ hw'
        · exact List.mem_cons_of_mem _ (ih _ hw')

lemma charsPerLine_ten_thirty : ImageGenerator.charsPerLine 10 30 = 5 := by
  unfold ImageGenerator.charsPerLine
  have : ((30 : ℚ) / (10 * (6 / 10))) = 5 := by norm_num
  rw [this]
  exact_mod_cast Int.floor_intCast 5

lemma demo_wrap_lines :
    ImageGenerator.createMultilineTextLines "aaa bb" 10 30 = ["aaa bb"] := by
  unfold ImageGenerator.createMultilineTextLines
  rw [charsPerLine_ten_thirty]
  decide

theorem claim2_counterexample :
    ImageGenerator.charsPerLine 10 30 = 5 ∧
    ImageGenerator.createMultilineTextLines "aaa bb" 10 30 = ["aaa bb"] ∧
    ImageGenerator.jsSplitSpace "aaa bb" = ["aaa", "bb"] ∧
    ¬ ((("aaa bb" : String).length : Int) ≤ 5) ∧
    (("aaa" : String).length : Int) ≤ 5 ∧ (("bb" : String).length : Int) ≤ 5 :=
  ⟨charsPerLine_ten_thirty, demo_wrap_lines, by decide, by decide, by decide,
   by decide⟩

/-- C2 (amended): every emitted line stays within `charsPerLine + 1`
characters — the check ignores the joining space, so lines may exceed the
threshold by exactly one — except that a line may be a single word longer
than the threshold; and every nonempty word longer than the threshold is
still emitted as its own line, never dropped. -/
theorem claim2_wrap_bound (text : String) (fontSize maxWidth : ℚ)
    (line : String)
    (hl : line ∈ ImageGenerator.createMultilineTextLines text fontSize
      maxWidth) :
    ((line.length : Int) ≤ ImageGenerator.charsPerLine fontSize maxWidth + 1 ∨
      (line ∈ ImageGenerator.jsSplitSpace text ∧
       ImageGenerator.charsPerLine fontSize maxWidth < (line.length : Int))) ∧
    (∀ w, w ∈ ImageGenerator.jsSplitSpace text → w ≠ "" →
      ImageGenerator.charsPerLine fontSize maxWidth < (w.length : Int) →
      w ∈ ImageGenerator.createMultilineTextLines text fontSize maxWidth) := by
  constructor
  · rcases wrapGo_mem (ImageGenerator.charsPerLine fontSize maxWidth)
      (ImageGenerator.jsSplitSpace text) "" line hl with
      hle | ⟨hgt, hmem | ⟨rfl, hne⟩⟩
    · exact Or.inl hle
    · exact Or.inr ⟨hmem, hgt⟩
    · exact absurd rfl hne
  · intro w hw hne hlen
    exact wrap_overlong _ _ _ w hw hlen hne

theorem claim2_witness :
    "aaa bb" ∈ ImageGenerator.createMultilineTextLines "aaa bb" 10 30 ∧
    ((("aaa bb".length : Int) ≤ ImageGenerator.charsPerLine 10 30 + 1 ∨
      ("aaa bb" ∈ ImageGenerator.jsSplitSpace "aaa bb" ∧
       ImageGenerator.charsPerLine 10 30 < ("aaa bb".length : Int))) ∧
     (∀ w, w ∈ ImageGenerator.jsSplitSpace "aaa bb" → w ≠ "" →
       ImageGenerator.charsPerLine 10 30 < (w.length : Int) →
       w ∈ ImageGenerator.createMultilineTextLines "aaa bb" 10 30)) :=
  ⟨demo_wrap_lines ▸ List.mem_singleton_self "aaa bb",
   claim2_wrap_bound "aaa bb" 10 30 "aaa bb"
     (demo_wrap_lines ▸ List.mem_singleton_self "aaa bb")⟩

lemma fallback_eq_map (config : PromoConfig) (lang : String) (q : Nat) :
    TextGenerator.generateFallbackVariations config q lang =
      (List.range q).map (TextGenerator.mkFallbackVariation config lang) := by
  unfold TextGenerator.generateFallbackVariations
  dsimp only
  rw [if_neg]
  simp only [List.length_map, List.length_range]
  omega

lemma fallback_length (config : PromoConfig) (lang : String) (q : Nat) :
    (TextGenerator.generateFallbackVariations config q lang).length = q := by
  rw [fallback_eq_map]
  simp

lemma fallback_ne_nil (config : PromoConfig) (lang : String) (q : Nat)
    (hq : 1 ≤ q) :
    TextGenerator.generateFallbackVariations config q lang ≠ [] := by
  intro h
  have hl := fallback_length config lang q
  rw [h] at hl
  simp at hl
  omega

lemma fallback_get (config : PromoConfig) (lang : String) (q i : Nat)
    (hi : i < q) :
    (TextGenerator.generateFallbackVariations config q lang).get? i =
      some (TextGenerator.mkFallbackVariation config lang i) := by
  rw [fallback_eq_map, List.get?_map, List.get?_range hi]
  rfl

/-- C1 (amended): Text Variation Acquisition never propagates an error — on
a failed generative call or a parse throw it answers with the (nonempty)
Fallback Bank — but a successfully parsed response is returned as-is, so the
result is empty exactly when the response parsed to an empty sequence (for
instance a valid JSON array whose elements all lack required fields). -/
theorem claim1_acquisition (config : PromoConfig) (q : Nat) (lang : String)
    (ai : TextGenerator.AIOutcome) (hq : 1 ≤ q) :
    (TextGenerator.generateVariations config q lang ai = [] ↔
      ∃ p, ai = TextGenerator.AIOutcome.response p ∧
        TextGenerator.parseResponse p = Except.ok []) ∧
    (ai = TextGenerator.AIOutcome.failure →
      TextGenerator.generateVariations config q lang ai =
        TextGenerator.generateFallbackVariations config q lang) ∧
    (∀ p, ai = TextGenerator.AIOutcome.response p →
      TextGenerator.parseResponse p = Except.error () →
      TextGenerator.generateVariations config q lang ai =
        TextGenerator.generateFallbackVariations config q lang) := by
  cases ai with
  | failure =>
    refine ⟨?_, fun _ => rfl, fun p hp => nomatch hp⟩
    constructor
    · intro h
      exact absurd h (fallback_ne_nil config lang q hq)
    · rintro ⟨p, hp, _⟩
      exact nomatch hp
  | response parsed =>
    cases hp : TextGenerator.parseResponse parsed with
    | ok vs =>
      have hv : TextGenerator.generateVariations config q lang
          (TextGenerator.AIOutcome.response parsed) = vs := by
        unfold TextGenerator.generateVariations
        dsimp only
        rw [hp]
      refine ⟨?_, ?_, ?_⟩
      · rw [hv]
        constructor
        · intro h
          exact ⟨parsed, rfl, by rw [hp, h]⟩
        · rintro ⟨p, hpeq, hok⟩
          cases hpeq
          rw [hp] at hok
          rw [Except.ok.inj hok]
      · intro h
        exact nomatch h
      · intro p hpp herr
        cases hpp
        rw [hp] at herr
        exact nomatch herr
    | error e =>
      have hv : TextGenerator.generateVariations config q lang
          (TextGenerator.AIOutcome.response parsed) =
          TextGenerator.generateFallbackVariations config q lang := by
        unfold TextGenerator.generateVariations
        dsimp only
        rw [hp]
      refine ⟨?_, ?_, ?_⟩
      · rw [hv]
        constructor
        · intro h
          exact absurd h (fallback_ne_nil config lang q hq)
        · rintro ⟨p, hpeq, hok⟩
          cases hpeq
          rw [hp] at hok
          exact nomatch hok
      · intro h
        exact nomatch h
      · intro p hpp herr
        exact hv

/-- C1 counterexample: a generative response that parses to the empty JSON
array is returned as the empty list — acquisition does not fall back and
hands an empty sequence to its caller. -/
theorem claim1_counterexample :
    ¬ (∀ (config : PromoConfig) (q : Nat) (lang : String)
        (ai : TextGenerator.AIOutcome), 1 ≤ q →
        TextGenerator.generateVariations config q lang ai ≠ []) := by
  intro hall
  exact hall demoConfig 1 "English"
    (TextGenerator.AIOutcome.response (some (Json.arr []))) (by omega) rfl

theorem claim1_witness :
    1 ≤ 1 ∧
    ((TextGenerator.generateVariations demoConfig 1 "English"
        TextGenerator.AIOutcome.failure = [] ↔
      ∃ p, TextGenerator.AIOutcome.failure =
          TextGenerator.AIOutcome.response p ∧
        TextGenerator.parseResponse p = Except.ok []) ∧
     (TextGenerator.AIOutcome.failure = TextGenerator.AIOutcome.failure →
       TextGenerator.generateVariations demoConfig 1 "English"
          TextGenerator.AIOutcome.failure =
        TextGenerator.generateFallbackVariations demoConfig 1 "English") ∧
     (∀ p, TextGenerator.AIOutcome.failure =
         TextGenerator.AIOutcome.response p →
       TextGenerator.parseResponse p = Except.error () →
       TextGenerator.generateVariations demoConfig 1 "English"
          TextGenerator.AIOutcome.failure =
        TextGenerator.generateFallbackVariations demoConfig 1 "English")) :=
  ⟨Nat.le_refl 1,
   claim1_acquisition demoConfig 1 "English" TextGenerator.AIOutcome.failure
     (Nat.le_refl 1)⟩

lemma str_pos_of_ne (s : String) (hs : s ≠ "") : 0 < s.length := by
  rcases Nat.eq_zero_or_pos s.length with h0 | hpos
  · exact absurd (str_eq_of_data (List.length_eq_zero.mp h0)) hs
  · exact hpos

lemma jsSubstring0_len (s : String) (n : Nat) :
    (jsSubstring0 s n).length ≤ n := by
  show (s.data.take n).length ≤ n
  simp [List.length_take]

lemma jsSubstring0_ne (s : String) (n : Nat) (hn : 0 < n) (hs : s ≠ "") :
    jsSubstring0 s n ≠ "" := by
  intro h
  have h0 : (jsSubstring0 s n).length = min n s.length := by
    show (s.data.take n).length = min n s.data.length
    exact List.length_take n s.data
  rw [h] at h0
  have := str_pos_of_ne s hs
  show False
  have h00 : ("" : String).length = 0 := rfl
  rw [h00] at h0
  have : min n s.length ≤ 0 := le_of_eq h0.symm
  omega

lemma append_ne_left (a b : String) (ha : a ≠ "") : a ++ b ≠ "" := by
  intro h
  have hl := str_length_append a b
  rw [h] at hl
  have := str_pos_of_ne a ha
  have h00 : ("" : String).length = 0 := rfl
  rw [h00] at hl
  omega

lemma append_ne_right (a b : String) (hb : b ≠ "") : a ++ b ≠ "" := by
  intro h
  have hl := str_length_append a b
  rw [h] at hl
  have := str_pos_of_ne b hb
  have h00 : ("" : String).length = 0 := rfl
  rw [h00] at hl
  omega

lemma title_ne (config : PromoConfig) (lang tone : String)
    (ht : tone ∈ TextGenerator.baseTones) :
    TextGenerator.generateFallbackTitle config tone lang ≠ "" := by
  fin_cases ht <;>
    (unfold TextGenerator.generateFallbackTitle
     by_cases hl : lang = "Spanish" <;>
       simp only [hl, if_true, if_false, TextGenerator.spanishTitle,
         TextGenerator.englishTitle, Option.getD_some] <;>
       refine jsSubstring0_ne _ _ (by omega) ?_ <;>
       first
         | exact append_ne_right _ _ (by decide)
         | exact append_ne_left _ _ (by decide)
         | decide)

lemma subtitle_ne (config : PromoConfig) (lang tone : String)
    (ht : tone ∈ TextGenerator.baseTones) :
    TextGenerator.generateFallbackSubtitle config tone lang ≠ "" := by
  fin_cases ht <;>
    (unfold TextGenerator.generateFallbackSubtitle
     by_cases hl : lang = "Spanish" <;>
       simp only [hl, if_true, if_false, TextGenerator.spanishSubtitle,
         TextGenerator.englishSubtitle, Option.getD_some] <;>
       refine jsSubstring0_ne _ _ (by omega) ?_ <;>
       first
         | exact append_ne_right _ _ (by decide)
         | exact append_ne_left _ _ (by decide)
         | decide)

lemma cta_ne (lang tone : String) (ht : tone ∈ TextGenerator.baseTones) :
    TextGenerator.generateFallbackCTA tone lang ≠ "" := by
  fin_cases ht <;>
    (unfold TextGenerator.generateFallbackCTA
     by_cases hl : lang = "Spanish" <;>
       simp only [hl, if_true, if_false, TextGenerator.spanishCTA,
         TextGenerator.englishCTA, Option.getD_some] <;>
       refine jsSubstring0_ne _ _ (by omega) ?_ <;>
       first
         | exact append_ne_right _ _ (by decide)
         | exact append_ne_left _ _ (by decide)
         | decide)

lemma description_ne (config : PromoConfig) (lang tone : String) (i : Nat)
    (ht : tone ∈ TextGenerator.baseTones) :
    TextGenerator.generateFallbackDescription config tone i lang ≠ "" := by
  fin_cases ht <;>
    (unfold TextGenerator.generateFallbackDescription
     by_cases hl : lang = "Spanish" <;>
       simp only [hl, if_true, if_false, TextGenerator.spanishDescription,
         TextGenerator.englishDescription, Option.getD_some] <;>
       refine jsSubstring0_ne _ _ (by omega) ?_ <;>
       first
         | exact append_ne_right _ _ (by decide)
         | exact append_ne_left _ _ (by decide)
         | decide)

lemma tone_mem (i : Nat) :
    TextGenerator.baseTones.getD (i % TextGenerator.baseTones.length) "" ∈
      TextGenerator.baseTones := by
  have h8 : i % TextGenerator.baseTones.length < 8 := Nat.mod_lt _ (by decide)
  set k := i % TextGenerator.baseTones.length with hk
  interval_cases k <;> decide

lemma tone_ne (i : Nat) :
    TextGenerator.baseTones.getD (i % TextGenerator.baseTones.length) "" ≠
      "" := by
  have h8 : i % TextGenerator.baseTones.length < 8 := Nat.mod_lt _ (by decide)
  set k := i % TextGenerator.baseTones.length with hk
  interval_cases k <;> decide

/-- C4 (confirmed): for quantity ≥ 1 the Fallback Bank returns exactly
`quantity` variations; the variation in slot `i` carries tone
`baseTones[i % 8]`, every one of its five fields is populated (nonempty), and
each field respects its hard cap (title ≤ 50, subtitle ≤ 80, CTA ≤ 30,
description ≤ 200 characters). -/
theorem claim4_fallback_bank (config : PromoConfig) (lang : String)
    (q i : Nat) (v : TextVariation) (hq : 1 ≤ q)
    (hv : (TextGenerator.generateFallbackVariations config q lang).get? i =
      some v) :
    (TextGenerator.generateFallbackVariations config q lang).length = q ∧
    v.tone = TextGenerator.baseTones.getD (i % 8) "" ∧
    v.title.length ≤ 50 ∧ v.subtitle.length ≤ 80 ∧
    v.callToAction.length ≤ 30 ∧ v.description.length ≤ 200 ∧
    v.title ≠ "" ∧ v.subtitle ≠ "" ∧ v.callToAction ≠ "" ∧
    v.description ≠ "" ∧ v.tone ≠ "" := by
  have hi : i < q := by
    by_contra hcon
    rw [fallback_eq_map, List.get?_map,
      List.get?_eq_none.mpr (by simpa using Nat.le_of_not_lt hcon)] at hv
    exact nomatch hv
  rw [fallback_get config lang q i hi] at hv
  have hveq : v = TextGenerator.mkFallbackVariation config lang i :=
    (Option.some.inj hv).symm
  subst hveq
  refine ⟨fallback_length config lang q, rfl, jsSubstring0_len _ _,
    jsSubstring0_len _ _, jsSubstring0_len _ _, jsSubstring0_len _ _,
    title_ne config lang _ (tone_mem i), subtitle_ne config lang _ (tone_mem i),
    cta_ne lang _ (tone_mem i), description_ne config lang _ i (tone_mem i),
    tone_ne i⟩

theorem claim4_witness :
    1 ≤ 3 ∧
    (TextGenerator.generateFallbackVariations demoConfig 3 "English").get? 1 =
      some (TextGenerator.mkFallbackVariation demoConfig "English" 1) ∧
    ((TextGenerator.generateFallbackVariations demoConfig 3 "English").length =
      3 ∧
     (TextGenerator.mkFallbackVariation demoConfig "English" 1).tone =
      TextGenerator.baseTones.getD (1 % 8) "" ∧
     (TextGenerator.mkFallbackVariation demoConfig "English" 1).title.length ≤
      50 ∧
     (TextGenerator.mkFallbackVariation demoConfig "English"
        1).subtitle.length ≤ 80 ∧
     (TextGenerator.mkFallbackVariation demoConfig "English"
        1).callToAction.length ≤ 30 ∧
     (TextGenerator.mkFallbackVariation demoConfig "English"
        1).description.length ≤ 200 ∧
     (TextGenerator.mkFallbackVariation demoConfig "English" 1).title ≠ "" ∧
     (TextGenerator.mkFallbackVariation demoConfig "English" 1).subtitle ≠
      "" ∧
     (TextGenerator.mkFallbackVariation demoConfig "English" 1).callToAction ≠
      "" ∧
     (TextGenerator.mkFallbackVariation demoConfig "English" 1).description ≠
      "" ∧
     (TextGenerator.mkFallbackVariation demoConfig "English" 1).tone ≠ "") :=
  ⟨by omega, fallback_get demoConfig "English" 3 1 (by omega),
   claim4_fallback_bank demoConfig "English" 3 1
     (TextGenerator.mkFallbackVariation demoConfig "English" 1) (by omega)
     (fallback_get demoConfig "English" 3 1 (by omega))⟩

lemma runCellsGo_eq (config : PromoConfig) (tvs : List TextVariation)
    (render : TextVariation → CanvasConfig → String → Bool) (k i : Nat) :
    FlyerGenerator.runCellsGo config tvs render i k =
      (List.range' i k).filterMap
        (FlyerGenerator.cellFlyer? config tvs render) := by
  induction k generalizing i with
  | zero => rfl
  | succ k ih =>
    rw [List.range'_succ, List.filterMap_cons]
    unfold FlyerGenerator.runCellsGo
    cases h : FlyerGenerator.cellFlyer? config tvs render i with
    | some f => simp [h, ih]
    | none => simp [h, ih]

lemma runCells_eq (config : PromoConfig) (tvs : List TextVariation)
    (render : TextVariation → CanvasConfig → String → Bool) (q : Nat) :
    FlyerGenerator.runCells config tvs render q =
      (List.range q).filterMap
        (FlyerGenerator.cellFlyer? config tvs render) := by
  unfold FlyerGenerator.runCells
  rw [runCellsGo_eq, List.range_eq_range']

/-- C3 (confirmed): the batch aborts with the single fatal error exactly when
acquisition produced no variations; otherwise it returns the cells whose
render succeeded — a failing cell is skipped without aborting the rest. -/
theorem claim3_batch_resilience (config : PromoConfig) (q : Nat)
    (ai : TextGenerator.AIOutcome)
    (render : TextVariation → CanvasConfig → String → Bool) :
    (TextGenerator.generateVariations config q "English" ai = [] →
      FlyerGenerator.generateVariations config q ai render =
        Except.error FlyerGenerator.fatalErrorMsg) ∧
    (TextGenerator.generateVariations config q "English" ai ≠ [] →
      FlyerGenerator.generateVariations config q ai render =
        Except.ok ((List.range q).filterMap
          (FlyerGenerator.cellFlyer? config
            (TextGenerator.generateVariations config q "English" ai)
            render))) := by
  constructor
  · intro h
    unfold FlyerGenerator.generateVariations
    dsimp only
    rw [if_pos (by rw [h]; rfl)]
  · intro h
    unfold FlyerGenerator.generateVariations
    dsimp only
    rw [if_neg (fun hc => h (List.length_eq_zero.mp hc)), runCells_eq]

theorem claim3_witness :
    TextGenerator.generateVariations demoConfig 1 "English"
      TextGenerator.AIOutcome.failure ≠ [] ∧
    FlyerGenerator.generateVariations demoConfig 1
      TextGenerator.AIOutcome.failure (fun _ _ _ => true) =
      Except.ok ((List.range 1).filterMap
        (FlyerGenerator.cellFlyer? demoConfig
          (TextGenerator.generateVariations demoConfig 1 "English"
            TextGenerator.AIOutcome.failure) (fun _ _ _ => true))) :=
  ⟨by decide,
   (claim3_batch_resilience demoConfig 1 TextGenerator.AIOutcome.failure
     (fun _ _ _ => true)).2 (by decide)⟩

/-- The empty text variation (placeholder for total indexing). -/
def blankVariation : TextVariation :=
  { title := "", subtitle := "", callToAction := "", description := "",
    tone := "" }

/-- The flyer cell `i` produces when its render succeeds. -/
def cellFlyerTotal (config : PromoConfig) (tvs : List TextVariation)
    (i : Nat) : GeneratedFlyer :=
  { filename := FlyerGenerator.cellFilename i
      ((tvs.getD (i % tvs.length) blankVariation).tone) Format.facebook,
    textVariation := tvs.getD (i % tvs.length) blankVariation,
    color := FlyerGenerator.cellColor config.colors i,
    format := Format.facebook }

lemma tvs_get_some (tvs : List TextVariation) (i : Nat) (htv : tvs ≠ []) :
    tvs.get? (i % tvs.length) =
      some (tvs.getD (i % tvs.length) blankVariation) := by
  have hlen : 0 < tvs.length := List.length_pos.mpr htv
  have hmod : i % tvs.length < tvs.length := Nat.mod_lt _ hlen
  cases hx : tvs.get? (i % tvs.length) with
  | none => exact absurd (List.get?_eq_none.mp hx) (by omega)
  | some tv =>
    rw [List.getD_eq_get?, hx]
    rfl

lemma cellFlyer?_eq (config : PromoConfig) (tvs : List TextVariation)
    (render : TextVariation → CanvasConfig → String → Bool) (i : Nat)
    (htv : tvs ≠ []) (hr : ∀ tv cc p, render tv cc p = true) :
    FlyerGenerator.cellFlyer? config tvs render i =
      some (cellFlyerTotal config tvs i) := by
  unfold FlyerGenerator.cellFlyer?
  rw [tvs_get_some tvs i htv]
  dsimp only
  rw [hr]
  rfl

lemma filterMap_all_some {α β : Type} (f : α → Option β) (g : α → β)
    (l : List α) (h : ∀ a ∈ l, f a = some (g a)) :
    l.filterMap f = l.map g := by
  induction l with
  | nil => rfl
  | cons x xs ih =>
    rw [List.filterMap_cons, h x (List.mem_cons_self x xs), List.map_cons,
      ih (fun a ha => h a (List.mem_cons_of_mem _ ha))]

/-- C5 (confirmed): with every render succeeding, the batch yields one flyer
per cell, and cell `i` carries color `colors[i % colors.length]` (for a
genuine, nonempty palette entry, per the data model) and text variation
`variations[i % variations.length]`. -/
theorem claim5_cycling (config : PromoConfig) (q : Nat)
    (ai : TextGenerator.AIOutcome)
    (render : TextVariation → CanvasConfig → String → Bool)
    (i : Nat) (c : String)
    (htv : TextGenerator.generateVariations config q "English" ai ≠ [])
    (hr : ∀ tv cc p, render tv cc p = true) (hi : i < q)
    (hc : config.colors.get? (i % config.colors.length) = some c)
    (hcne : c ≠ "") :
    ∃ flyers, FlyerGenerator.generateVariations config q ai render =
        Except.ok flyers ∧
      flyers.length = q ∧
      ∀ f, flyers.get? i = some f →
        f.color = c ∧
        (TextGenerator.generateVariations config q "English" ai).get?
            (i % (TextGenerator.generateVariations config q "English"
              ai).length) = some f.textVariation := by
  have hok : FlyerGenerator.generateVariations config q ai render =
      Except.ok (FlyerGenerator.runCells config
        (TextGenerator.generateVariations config q "English" ai) render q) := by
    unfold FlyerGenerator.generateVariations
    dsimp only
    rw [if_neg (fun hc0 => htv (List.length_eq_zero.mp hc0))]
  have hmap : FlyerGenerator.runCells config
      (TextGenerator.generateVariations config q "English" ai) render q =
      (List.range q).map (cellFlyerTotal config
        (TextGenerator.generateVariations config q "English" ai)) := by
    rw [runCells_eq]
    exact filterMap_all_some _ _ _
      (fun a _ => cellFlyer?_eq config _ render a htv hr)
  refine ⟨_, hok, ?_, ?_⟩
  · rw [hmap]
    simp
  · intro f hf
    rw [hmap, List.get?_map, List.get?_range hi] at hf
    have hfeq : f = cellFlyerTotal config
        (TextGenerator.generateVariations config q "English" ai) i :=
      (Option.some.inj hf).symm
    subst hfeq
    constructor
    · show FlyerGenerator.cellColor config.colors i = c
      unfold FlyerGenerator.cellColor
      rw [hc]
      dsimp only
      rw [if_neg hcne]
    · exact tvs_get_some _ i htv
theorem claim5_witness :
    TextGenerator.generateVariations demoConfig 5 "English"
      TextGenerator.AIOutcome.failure ≠ [] ∧
    (3 : Nat) < 5 ∧
    demoConfig.colors.get? (3 % demoConfig.colors.length) = some "#FF0000" ∧
    "#FF0000" ≠ "" ∧
    (∃ flyers, FlyerGenerator.generateVariations demoConfig 5
        TextGenerator.AIOutcome.failure (fun _ _ _ => true) =
        Except.ok flyers ∧
      flyers.length = 5 ∧
      ∀ f, flyers.get? 3 = some f →
        f.color = "#FF0000" ∧
        (TextGenerator.generateVariations demoConfig 5 "English"
            TextGenerator.AIOutcome.failure).get?
            (3 % (TextGenerator.generateVariations demoConfig 5 "English"
              TextGenerator.AIOutcome.failure).length) =
          some f.textVariation) :=
  ⟨by decide, by omega, by decide, by decide,
   claim5_cycling demoConfig 5 TextGenerator.AIOutcome.failure
     (fun _ _ _ => true) 3 "#FF0000" (by decide) (fun _ _ _ => rfl)
     (by omega) (by decide) (by decide)⟩

/-- The blank flyer used for total indexing in the witnesses. -/
def blankFlyer : GeneratedFlyer :=
  { filename := "", textVariation := blankVariation, color := "",
    format := Format.facebook }

lemma cellFlyer?_format (config : PromoConfig) (tvs : List TextVariation)
    (render : TextVariation → CanvasConfig → String → Bool) (i : Nat)
    (f : GeneratedFlyer)
    (h : FlyerGenerator.cellFlyer? config tvs render i = some f) :
    f.format = Format.facebook := by
  unfold FlyerGenerator.cellFlyer? at h
  split at h
  · exact nomatch h
  · dsimp only at h
    split at h
    · rw [← Option.some.inj h]
    · exact nomatch h

/-- C10 (confirmed): every flyer returned by the single-format batch entry
point has format `facebook`, the canvas built for every cell takes its
dimensions from `config.sizes.facebook`, and `generateCustomVariations`
delegates to this entry point on the synthesized quick brief — so neither
entry point ever produces another format. -/
theorem claim10_facebook_only (config : PromoConfig) (q : Nat)
    (ai : TextGenerator.AIOutcome)
    (render : TextVariation → CanvasConfig → String → Bool)
    (flyers : List GeneratedFlyer)
    (hok : FlyerGenerator.generateVariations config q ai render =
      Except.ok flyers)
    (f : GeneratedFlyer) (hf : f ∈ flyers) :
    f.format = Format.facebook ∧
    (∀ color, (FlyerGenerator.cellCanvas config color).width =
        config.sizes.facebook.width ∧
      (FlyerGenerator.cellCanvas config color).height =
        config.sizes.facebook.height) ∧
    (∀ product offer colors qq ai2 render2,
      FlyerGenerator.generateCustomVariations product offer colors qq ai2
          render2 =
        FlyerGenerator.generateVariations
          (FlyerGenerator.quickConfig product offer colors) qq ai2
          render2) := by
  refine ⟨?_, fun color => ⟨rfl, rfl⟩, fun _ _ _ _ _ _ => rfl⟩
  unfold FlyerGenerator.generateVariations at hok
  dsimp only at hok
  split at hok
  · exact nomatch hok
  · have hfl : flyers = FlyerGenerator.runCells config
        (TextGenerator.generateVariations config q "English" ai) render q :=
      (Except.ok.inj hok).symm
    rw [hfl, runCells_eq] at hf
    rcases List.mem_filterMap.mp hf with ⟨i, _, hcell⟩
    exact cellFlyer?_format config _ render i f hcell

/-- The batch the C10 witness inspects. -/
def demoFlyers : List GeneratedFlyer :=
  FlyerGenerator.runCells demoConfig
    (TextGenerator.generateVariations demoConfig 1 "English"
      TextGenerator.AIOutcome.failure) (fun _ _ _ => true) 1

lemma demo_batch_ok :
    FlyerGenerator.generateVariations demoConfig 1
      TextGenerator.AIOutcome.failure (fun _ _ _ => true) =
      Except.ok demoFlyers := by
  unfold FlyerGenerator.generateVariations
  dsimp only
  rw [if_neg (by decide)]
  rfl

theorem claim10_witness :
    FlyerGenerator.generateVariations demoConfig 1
      TextGenerator.AIOutcome.failure (fun _ _ _ => true) =
      Except.ok demoFlyers ∧
    demoFlyers.getD 0 blankFlyer ∈ demoFlyers ∧
    ((demoFlyers.getD 0 blankFlyer).format = Format.facebook ∧
     (∀ color, (FlyerGenerator.cellCanvas demoConfig color).width =
         demoConfig.sizes.facebook.width ∧
       (FlyerGenerator.cellCanvas demoConfig color).height =
         demoConfig.sizes.facebook.height) ∧
     (∀ product offer colors qq ai2 render2,
       FlyerGenerator.generateCustomVariations product offer colors qq ai2
           render2 =
         FlyerGenerator.generateVariations
           (FlyerGenerator.quickConfig product offer colors) qq ai2
           render2)) :=
  ⟨demo_batch_ok, by decide,
   claim10_facebook_only demoConfig 1 TextGenerator.AIOutcome.failure
     (fun _ _ _ => true) demoFlyers demo_batch_ok
     (demoFlyers.getD 0 blankFlyer) (by decide)⟩

end PromoMaker
